import Mathlib

/-!
Verification of the lifecycle-event recorder of
`src/angular-lifecycle-app/src/app/lifecycle.component.ts`
(`LifecycleComponent`).

Shallow embedding notes:
* The component's fields `name`, `counter`, `logs`, `checkCount`,
  `contentCheckCount`, `viewCheckCount` become fields of a Lean structure.
  `counter` (a TS `number` that is only ever incremented by 1 from 0) is
  modelled as `Int`.
* `addLog` reads the wall clock (`new Date().toLocaleTimeString()`).  The
  environment's clock is modelled as a list of future timestamp strings
  carried in the state (`clock`); each `addLog` call consumes one reading
  (an exhausted clock yields `""`).  No claim depends on timestamp values.
* `console.log` mirrors (the secondary diagnostic sink) are side effects
  outside the recorder's state and are not modelled.
* `SimpleChanges` (a JS object mapping property names to `SimpleChange`)
  is modelled as an association list in the object's insertion/iteration
  order, which is the order `for (const propName in changes)` visits.
  The `any`-typed `previousValue` / `currentValue` are modelled by the
  inductive `JsValue` covering the primitive values the demo uses
  (`JSON.stringify` of objects/arrays and string escaping are not needed
  by any claim and are not modelled; the inputs considered contain no
  characters requiring escaping).
* `JSON.stringify(undefined)` evaluates to `undefined` (not a string!),
  which a template literal then renders as the text "undefined"; this is
  modelled by `jsonStringify : JsValue → Option String` and
  `jsTemplateStr : Option String → String`.
* In addition to the faithful handlers (whose `addLog` caps the buffer at
  50 entries, evicting the oldest), a ghost variant of the machine
  (`...Full` names) records the *unbounded* append history: it is the same
  code with the truncation removed.  Theorem `c1_buffer_bound` proves the
  real buffer is always exactly the last-at-most-50 entries of that full
  history, which is what licenses stating the sampling-count claims on the
  ghost machine.
-/

/-- A JS value as used for `SimpleChange.previousValue` / `currentValue`
in the demo (TypeScript type `any`); restricted to the primitives that
occur. -/
inductive JsValue where
  | undefined
  | null
  | str (s : String)
  | num (n : Int)
  | jsBool (b : Bool)
deriving DecidableEq, Repr

/-- `JSON.stringify` on a `JsValue`.  On `undefined` the real function
returns the value `undefined` rather than a string, modelled as `none`.
(String escaping is omitted: no input considered contains characters that
JSON escapes.) -/
def jsonStringify : JsValue → Option String
  | JsValue.undefined => none
  | JsValue.null => some "null"
  | JsValue.str s => some ("\"" ++ s ++ "\"")
  | JsValue.num n => some (toString n)
  | JsValue.jsBool b => some (if b then "true" else "false")

/-- Rendering of a possibly-`undefined` string by a JS template literal:
`undefined` is rendered as the text "undefined". -/
def jsTemplateStr : Option String → String
  | none => "undefined"
  | some s => s

/-- Angular's `SimpleChange` restricted to the two fields the component
reads (`firstChange` is never read by the component and is omitted). -/
structure SimpleChange where
  previousValue : JsValue
  currentValue : JsValue
deriving DecidableEq, Repr

/-- A `SimpleChanges` object: property name ↦ change, in the object's
insertion (= `for..in` iteration) order. -/
abbrev SimpleChanges := List (String × SimpleChange)

/-- The state of `LifecycleComponent`, plus the modelled environment
clock (future `toLocaleTimeString()` readings). -/
@[ext]
structure LifecycleComponent where
  name : String
  counter : Int
  logs : List String
  checkCount : Nat
  contentCheckCount : Nat
  viewCheckCount : Nat
  clock : List String
deriving DecidableEq, Repr

/-- Field-initializer state of the class, before the constructor body
runs: `name = 'Default Component'`, `counter = 0`, `logs = []`, all three
check counters 0. -/
def initState (clock : List String) : LifecycleComponent :=
  { name := "Default Component"
    counter := 0
    logs := []
    checkCount := 0
    contentCheckCount := 0
    viewCheckCount := 0
    clock := clock }

/-- `addLog`: prefix the message with a bracketed timestamp, push it, and
if the buffer now exceeds 50 entries, `shift()` (drop the oldest). -/
def addLog (message : String) (c : LifecycleComponent) : LifecycleComponent :=
  let timestamp := c.clock.headD ""
  let logs := c.logs ++ ["[" ++ timestamp ++ "] " ++ message]
  { c with
    clock := c.clock.tail
    logs := if logs.length > 50 then logs.tail else logs }

/-- The constructor: initialize fields, then log the creation entry. -/
def construct (clock : List String) : LifecycleComponent :=
  addLog "#1. Constructor: Component instance created" (initState clock)

/-- The per-property message of the `ngOnChanges` loop body:
`` `#2. ngOnChanges: - ${propName}: ${previous} → ${current}` ``. -/
def changeMsg (propName : String) (change : SimpleChange) : String :=
  let current := jsonStringify change.currentValue
  let previous := jsonStringify change.previousValue
  "#2. ngOnChanges: - " ++ propName ++ ": " ++ jsTemplateStr previous
    ++ " → " ++ jsTemplateStr current

/-- `ngOnChanges`: one header/summary entry, then one entry per changed
property in the changeset's iteration order. -/
def ngOnChanges (changes : SimpleChanges) (c : LifecycleComponent) :
    LifecycleComponent :=
  let c := addLog "#2. ngOnChanges: Input properties changed" c
  changes.foldl (fun c pc => addLog (changeMsg pc.1 pc.2) c) c

/-- `ngOnInit`. -/
def ngOnInit (c : LifecycleComponent) : LifecycleComponent :=
  addLog "#3. ngOnInit: Component initialized (called once)" c

/-- `ngDoCheck`: increment `checkCount`; log only for the first 5
occurrences or when `checkCount` is a multiple of 10. -/
def ngDoCheck (c : LifecycleComponent) : LifecycleComponent :=
  let c := { c with checkCount := c.checkCount + 1 }
  if c.checkCount ≤ 5 || c.checkCount % 10 == 0 then
    addLog ("#4. ngDoCheck: Change detection run #" ++ toString c.checkCount) c
  else c

/-- `ngAfterContentInit`. -/
def ngAfterContentInit (c : LifecycleComponent) : LifecycleComponent :=
  addLog "#5. ngAfterContentInit: Content projection initialized (called once)" c

/-- `ngAfterContentChecked`: increment `contentCheckCount`; log only for
the first 3 occurrences or multiples of 10. -/
def ngAfterContentChecked (c : LifecycleComponent) : LifecycleComponent :=
  let c := { c with contentCheckCount := c.contentCheckCount + 1 }
  if c.contentCheckCount ≤ 3 || c.contentCheckCount % 10 == 0 then
    addLog ("#6. ngAfterContentChecked: Content checked #"
      ++ toString c.contentCheckCount) c
  else c

/-- `ngAfterViewInit`. -/
def ngAfterViewInit (c : LifecycleComponent) : LifecycleComponent :=
  addLog "#7. ngAfterViewInit: View initialized (called once)" c

/-- `ngAfterViewChecked`: increment `viewCheckCount`; log only for the
first 3 occurrences or multiples of 10. -/
def ngAfterViewChecked (c : LifecycleComponent) : LifecycleComponent :=
  let c := { c with viewCheckCount := c.viewCheckCount + 1 }
  if c.viewCheckCount ≤ 3 || c.viewCheckCount % 10 == 0 then
    addLog ("#8. ngAfterViewChecked: View checked #"
      ++ toString c.viewCheckCount) c
  else c

/-- `ngOnDestroy`: appends its entry; note that it records no terminal
state in the component (the console mirror is outside the state). -/
def ngOnDestroy (c : LifecycleComponent) : LifecycleComponent :=
  addLog "#9. ngOnDestroy: Component is being destroyed" c

/-- `incrementCounter` (user action): increment `counter`, log new value. -/
def incrementCounter (c : LifecycleComponent) : LifecycleComponent :=
  let c := { c with counter := c.counter + 1 }
  addLog ("User Action: Counter incremented to " ++ toString c.counter) c

/-- One deliverable notification to an existing recorder instance
(construction itself is `construct`). `increment` is the user action. -/
inductive Notification where
  | onChanges (changes : SimpleChanges)
  | onInit
  | doCheck
  | afterContentInit
  | afterContentChecked
  | afterViewInit
  | afterViewChecked
  | onDestroy
  | increment
deriving DecidableEq, Repr

/-- Dispatch of a notification to its handler. -/
def applyNotification : Notification → LifecycleComponent → LifecycleComponent
  | Notification.onChanges cs, c => ngOnChanges cs c
  | Notification.onInit, c => ngOnInit c
  | Notification.doCheck, c => ngDoCheck c
  | Notification.afterContentInit, c => ngAfterContentInit c
  | Notification.afterContentChecked, c => ngAfterContentChecked c
  | Notification.afterViewInit, c => ngAfterViewInit c
  | Notification.afterViewChecked, c => ngAfterViewChecked c
  | Notification.onDestroy, c => ngOnDestroy c
  | Notification.increment, c => incrementCounter c

/-- Run a sequence of notifications. -/
def run (ns : List Notification) (c : LifecycleComponent) : LifecycleComponent :=
  ns.foldl (fun c n => applyNotification n c) c

/-! ### Ghost machine: the same recorder with the 50-entry truncation
removed, so `logs` is the full append history.  Identical to the faithful
definitions above except that `addLogFull` never evicts. -/

/-- Ghost `addLog` without the 50-entry cap. -/
def addLogFull (message : String) (c : LifecycleComponent) : LifecycleComponent :=
  let timestamp := c.clock.headD ""
  { c with
    clock := c.clock.tail
    logs := c.logs ++ ["[" ++ timestamp ++ "] " ++ message] }

/-- Ghost constructor. -/
def constructFull (clock : List String) : LifecycleComponent :=
  addLogFull "#1. Constructor: Component instance created" (initState clock)

/-- Ghost `ngOnChanges`. -/
def ngOnChangesFull (changes : SimpleChanges) (c : LifecycleComponent) :
    LifecycleComponent :=
  let c := addLogFull "#2. ngOnChanges: Input properties changed" c
  changes.foldl (fun c pc => addLogFull (changeMsg pc.1 pc.2) c) c

/-- Ghost `ngOnInit`. -/
def ngOnInitFull (c : LifecycleComponent) : LifecycleComponent :=
  addLogFull "#3. ngOnInit: Component initialized (called once)" c

/-- Ghost `ngDoCheck`. -/
def ngDoCheckFull (c : LifecycleComponent) : LifecycleComponent :=
  let c := { c with checkCount := c.checkCount + 1 }
  if c.checkCount ≤ 5 || c.checkCount % 10 == 0 then
    addLogFull ("#4. ngDoCheck: Change detection run #" ++ toString c.checkCount) c
  else c

/-- Ghost `ngAfterContentInit`. -/
def ngAfterContentInitFull (c : LifecycleComponent) : LifecycleComponent :=
  addLogFull "#5. ngAfterContentInit: Content projection initialized (called once)" c

/-- Ghost `ngAfterContentChecked`. -/
def ngAfterContentCheckedFull (c : LifecycleComponent) : LifecycleComponent :=
  let c := { c with contentCheckCount := c.contentCheckCount + 1 }
  if c.contentCheckCount ≤ 3 || c.contentCheckCount % 10 == 0 then
    addLogFull ("#6. ngAfterContentChecked: Content checked #"
      ++ toString c.contentCheckCount) c
  else c

/-- Ghost `ngAfterViewInit`. -/
def ngAfterViewInitFull (c : LifecycleComponent) : LifecycleComponent :=
  addLogFull "#7. ngAfterViewInit: View initialized (called once)" c

/-- Ghost `ngAfterViewChecked`. -/
def ngAfterViewCheckedFull (c : LifecycleComponent) : LifecycleComponent :=
  let c := { c with viewCheckCount := c.viewCheckCount + 1 }
  if c.viewCheckCount ≤ 3 || c.viewCheckCount % 10 == 0 then
    addLogFull ("#8. ngAfterViewChecked: View checked #"
      ++ toString c.viewCheckCount) c
  else c

/-- Ghost `ngOnDestroy`. -/
def ngOnDestroyFull (c : LifecycleComponent) : LifecycleComponent :=
  addLogFull "#9. ngOnDestroy: Component is being destroyed" c

/-- Ghost `incrementCounter`. -/
def incrementCounterFull (c : LifecycleComponent) : LifecycleComponent :=
  let c := { c with counter := c.counter + 1 }
  addLogFull ("User Action: Counter incremented to " ++ toString c.counter) c

/-- Ghost dispatch. -/
def applyNotificationFull : Notification → LifecycleComponent → LifecycleComponent
  | Notification.onChanges cs, c => ngOnChangesFull cs c
  | Notification.onInit, c => ngOnInitFull c
  | Notification.doCheck, c => ngDoCheckFull c
  | Notification.afterContentInit, c => ngAfterContentInitFull c
  | Notification.afterContentChecked, c => ngAfterContentCheckedFull c
  | Notification.afterViewInit, c => ngAfterViewInitFull c
  | Notification.afterViewChecked, c => ngAfterViewCheckedFull c
  | Notification.onDestroy, c => ngOnDestroyFull c
  | Notification.increment, c => incrementCounterFull c

/-- Ghost run. -/
def runFull (ns : List Notification) (c : LifecycleComponent) : LifecycleComponent :=
  ns.foldl (fun c n => applyNotificationFull n c) c

/-- The last at-most-`n` elements of a list. -/
def lastN (n : Nat) (l : List α) : List α :=
  l.drop (l.length - n)

/-- The faithful buffer as a function of the ghost (full-history) state:
identical except that `logs` keeps only the most recent at-most-50
entries. -/
def truncState (c : LifecycleComponent) : LifecycleComponent :=
  { c with logs := lastN 50 c.logs }

/-- The fields of the component other than the log and the clock. -/
def coreFields (c : LifecycleComponent) : String × Int × Nat × Nat × Nat :=
  (c.name, c.counter, c.checkCount, c.contentCheckCount, c.viewCheckCount)

/-- The full entries the `ngOnChanges` property loop appends, given the
clock readings it will consume: one line per changed property, in the
changeset's iteration order. -/
def propLines : List String → SimpleChanges → List String
  | _, [] => []
  | clk, pc :: rest =>
      ("[" ++ clk.headD "" ++ "] " ++ changeMsg pc.1 pc.2) :: propLines clk.tail rest

/-- `leadsWith n h`: the char sequence `h` starts with `n`. -/
def leadsWith : List Char → List Char → Bool
  | [], _ => true
  | _ :: _, [] => false
  | a :: as, b :: bs => a == b && leadsWith as bs

/-- `containsSeq n h`: the char sequence `n` occurs contiguously in `h`. -/
def containsSeq (n : List Char) : List Char → Bool
  | [] => leadsWith n []
  | c :: t => leadsWith n (c :: t) || containsSeq n t

/-- Substring test: `strHas needle hay` holds when `needle` occurs in
`hay`. -/
def strHas (needle hay : String) : Bool :=
  containsSeq needle.toList hay.toList

theorem lastN_length (n : Nat) (l : List α) : (lastN n l).length = min n l.length := by
  simp only [lastN, List.length_drop]
  omega

theorem lastN_of_le {n : Nat} {l : List α} (h : l.length ≤ n) : lastN n l = l := by
  simp [lastN, Nat.sub_eq_zero_of_le h]

/-- Push-then-maybe-shift on a truncated list equals truncating the pushed
full list: the single step of `addLog`'s cap maintenance. -/
theorem lastN_push (cap : Nat) (hcap : 0 < cap) (lf : List α) (e : α) :
    (if ((lastN cap lf) ++ [e]).length > cap then ((lastN cap lf) ++ [e]).tail
      else (lastN cap lf) ++ [e]) = lastN cap (lf ++ [e]) := by
  have hlen : (lastN cap lf).length = min cap lf.length := lastN_length cap lf
  by_cases hk : lf.length < cap
  · rw [lastN_of_le (Nat.le_of_lt hk)]
    rw [if_neg (by simp only [List.length_append, List.length_cons, List.length_nil]; omega)]
    exact (lastN_of_le (by simp only [List.length_append, List.length_cons, List.length_nil]; omega)).symm
  · push_neg at hk
    have hlenc : (lastN cap lf).length = cap := by omega
    rw [if_pos (by simp only [List.length_append, List.length_cons, List.length_nil]; omega)]
    have hne : lastN cap lf ≠ [] := by
      intro h0
      rw [h0] at hlenc
      simp only [List.length_nil] at hlenc
      omega
    have htail : ((lastN cap lf) ++ [e]).tail = (lastN cap lf).tail ++ [e] := by
      cases hx : lastN cap lf with
      | nil => exact absurd hx hne
      | cons a as => simp
    rw [htail]
    simp only [lastN, List.tail_drop, List.drop_append_eq_append_drop,
      List.length_append, List.length_cons, List.length_nil]
    have h1 : lf.length - cap + 1 = lf.length + 1 - cap := by omega
    have h2 : lf.length + 1 - cap - lf.length = 0 := by omega
    rw [h1, h2]
    simp

@[simp] theorem truncState_name (c : LifecycleComponent) :
    (truncState c).name = c.name := rfl

@[simp] theorem truncState_counter (c : LifecycleComponent) :
    (truncState c).counter = c.counter := rfl

@[simp] theorem truncState_checkCount (c : LifecycleComponent) :
    (truncState c).checkCount = c.checkCount := rfl

@[simp] theorem truncState_contentCheckCount (c : LifecycleComponent) :
    (truncState c).contentCheckCount = c.contentCheckCount := rfl

@[simp] theorem truncState_viewCheckCount (c : LifecycleComponent) :
    (truncState c).viewCheckCount = c.viewCheckCount := rfl

@[simp] theorem truncState_clock (c : LifecycleComponent) :
    (truncState c).clock = c.clock := rfl

@[simp] theorem truncState_logs (c : LifecycleComponent) :
    (truncState c).logs = lastN 50 c.logs := rfl

/-- `addLog` on the truncated state simulates `addLogFull` on the full
state. -/
theorem addLog_trunc (m : String) (c : LifecycleComponent) :
    addLog m (truncState c) = truncState (addLogFull m c) := by
  have key := lastN_push 50 (by omega) c.logs ("[" ++ c.clock.headD "" ++ "] " ++ m)
  simp only [addLog, addLogFull, truncState_clock, truncState_logs]
  ext : 1 <;> simp [truncState]
  simpa using key

theorem ngOnInit_trunc (c : LifecycleComponent) :
    ngOnInit (truncState c) = truncState (ngOnInitFull c) :=
  addLog_trunc _ c

theorem ngAfterContentInit_trunc (c : LifecycleComponent) :
    ngAfterContentInit (truncState c) = truncState (ngAfterContentInitFull c) :=
  addLog_trunc _ c

theorem ngAfterViewInit_trunc (c : LifecycleComponent) :
    ngAfterViewInit (truncState c) = truncState (ngAfterViewInitFull c) :=
  addLog_trunc _ c

theorem ngOnDestroy_trunc (c : LifecycleComponent) :
    ngOnDestroy (truncState c) = truncState (ngOnDestroyFull c) :=
  addLog_trunc _ c

theorem truncState_set_checkCount (c : LifecycleComponent) (n : Nat) :
    ({ truncState c with checkCount := n }) = truncState { c with checkCount := n } := rfl

theorem truncState_set_contentCheckCount (c : LifecycleComponent) (n : Nat) :
    ({ truncState c with contentCheckCount := n })
      = truncState { c with contentCheckCount := n } := rfl

theorem truncState_set_viewCheckCount (c : LifecycleComponent) (n : Nat) :
    ({ truncState c with viewCheckCount := n })
      = truncState { c with viewCheckCount := n } := rfl

theorem truncState_set_counter (c : LifecycleComponent) (n : Int) :
    ({ truncState c with counter := n }) = truncState { c with counter := n } := rfl

theorem ngDoCheck_trunc (c : LifecycleComponent) :
    ngDoCheck (truncState c) = truncState (ngDoCheckFull c) := by
  simp only [ngDoCheck, ngDoCheckFull, truncState_checkCount, truncState_set_checkCount]
  split_ifs
  · exact addLog_trunc _ _
  · rfl

theorem ngAfterContentChecked_trunc (c : LifecycleComponent) :
    ngAfterContentChecked (truncState c) = truncState (ngAfterContentCheckedFull c) := by
  simp only [ngAfterContentChecked, ngAfterContentCheckedFull,
    truncState_contentCheckCount, truncState_set_contentCheckCount]
  split_ifs
  · exact addLog_trunc _ _
  · rfl

theorem ngAfterViewChecked_trunc (c : LifecycleComponent) :
    ngAfterViewChecked (truncState c) = truncState (ngAfterViewCheckedFull c) := by
  simp only [ngAfterViewChecked, ngAfterViewCheckedFull,
    truncState_viewCheckCount, truncState_set_viewCheckCount]
  split_ifs
  · exact addLog_trunc _ _
  · rfl

theorem incrementCounter_trunc (c : LifecycleComponent) :
    incrementCounter (truncState c) = truncState (incrementCounterFull c) := by
  simp only [incrementCounter, incrementCounterFull, truncState_counter,
    truncState_set_counter]
  exact addLog_trunc _ _

theorem changes_foldl_trunc (cs : SimpleChanges) :
    ∀ c : LifecycleComponent,
      cs.foldl (fun c pc => addLog (changeMsg pc.1 pc.2) c) (truncState c)
        = truncState (cs.foldl (fun c pc => addLogFull (changeMsg pc.1 pc.2) c) c) := by
  induction cs with
  | nil => intro c; rfl
  | cons pc rest ih =>
      intro c
      simp only [List.foldl_cons]
      rw [addLog_trunc]
      exact ih _

theorem ngOnChanges_trunc (cs : SimpleChanges) (c : LifecycleComponent) :
    ngOnChanges cs (truncState c) = truncState (ngOnChangesFull cs c) := by
  simp only [ngOnChanges, ngOnChangesFull]
  rw [addLog_trunc]
  exact changes_foldl_trunc cs _

theorem applyNotification_trunc (n : Notification) (c : LifecycleComponent) :
    applyNotification n (truncState c) = truncState (applyNotificationFull n c) := by
  cases n with
  | onChanges cs => exact ngOnChanges_trunc cs c
  | onInit => exact ngOnInit_trunc c
  | doCheck => exact ngDoCheck_trunc c
  | afterContentInit => exact ngAfterContentInit_trunc c
  | afterContentChecked => exact ngAfterContentChecked_trunc c
  | afterViewInit => exact ngAfterViewInit_trunc c
  | afterViewChecked => exact ngAfterViewChecked_trunc c
  | onDestroy => exact ngOnDestroy_trunc c
  | increment => exact incrementCounter_trunc c

theorem run_trunc (ns : List Notification) :
    ∀ c : LifecycleComponent, run ns (truncState c) = truncState (runFull ns c) := by
  induction ns with
  | nil => intro c; rfl
  | cons n rest ih =>
      intro c
      simp only [run, runFull, List.foldl_cons]
      rw [applyNotification_trunc]
      exact ih _

theorem construct_trunc (clock : List String) :
    construct clock = truncState (constructFull clock) :=
  addLog_trunc "#1. Constructor: Component instance created" (initState clock)

/-- **C1.** Along every notification sequence delivered to a freshly
constructed recorder (for every environment clock), the real log buffer
is exactly the last-at-most-50 entries of the full append history (the
entries that passed the sampling filters, in insertion order) — so the
cap-eviction is FIFO of exactly the oldest entry, relative order is
preserved — and its length never exceeds 50.  Since this holds for every
sequence, it holds after every intermediate operation as well. -/
theorem c1_buffer_bound (ns : List Notification) (clock : List String) :
    (run ns (construct clock)).logs = lastN 50 (runFull ns (constructFull clock)).logs
    ∧ (run ns (construct clock)).logs.length ≤ 50 := by
  have h : run ns (construct clock) = truncState (runFull ns (constructFull clock)) := by
    rw [construct_trunc]
    exact run_trunc ns _
  refine ⟨by rw [h]; rfl, ?_⟩
  rw [h]
  simp only [truncState_logs, lastN_length]
  omega

/-! ### Sampling counts (claims C2, C6, C7) -/

/-- Joint invariant of iterating `ngDoCheckFull` on a fresh recorder:
the check counter equals the number of notifications so far, and the full
log holds the constructor entry plus `min N 5 + N / 10` check entries. -/
theorem doCheckFull_iterate (clock : List String) :
    ∀ N : Nat, (ngDoCheckFull^[N] (constructFull clock)).checkCount = N
      ∧ (ngDoCheckFull^[N] (constructFull clock)).logs.length = 1 + (min N 5 + N / 10) := by
  intro N
  induction N with
  | zero => exact ⟨rfl, by simp [constructFull, addLogFull, initState]⟩
  | succ N ih =>
      obtain ⟨hc, hl⟩ := ih
      rw [Function.iterate_succ_apply']
      constructor
      · simp only [ngDoCheckFull, hc]
        split_ifs <;> rfl
      · have harith : (if N + 1 ≤ 5 ∨ (N + 1) % 10 = 0 then 1 else 0) + (min N 5 + N / 10)
            = min (N + 1) 5 + (N + 1) / 10 := by
          split_ifs <;> omega
        simp only [ngDoCheckFull, hc]
        by_cases hcond : N + 1 ≤ 5 ∨ (N + 1) % 10 = 0
        · have hb : (decide (N + 1 ≤ 5) || ((N + 1) % 10 == 0)) = true := by
            simp only [Bool.or_eq_true, decide_eq_true_eq, beq_iff_eq]
            exact hcond
          rw [hb, if_pos rfl]
          simp only [addLogFull, List.length_append, List.length_cons, List.length_nil]
          rw [if_pos hcond] at harith
          simp only [hl]
          omega
        · have hb : ¬ ((decide (N + 1 ≤ 5) || ((N + 1) % 10 == 0)) = true) := by
            simp only [Bool.or_eq_true, decide_eq_true_eq, beq_iff_eq]
            exact hcond
          rw [if_neg hb]
          rw [if_neg hcond] at harith
          simp only [hl]
          omega

/-- **C2 (counterexample).** The claimed count formula
`min(N,5) + floor(max(N-5,0)/10)` fails at `N = 10`: the 10th `ngDoCheck`
is a multiple of 10 and is logged, so the handler has appended 6 entries
(the buffer holds them after the 1 constructor entry), while the formula
gives 5. -/
theorem c2_check_count_cex :
    ¬ ((ngDoCheckFull^[10] (constructFull [])).logs.length
        = 1 + (min 10 5 + (max (10 - 5) 0) / 10)) := by
  decide

/-- **C2 (amended).** After `N` on-check notifications on a fresh
recorder, the full log holds the constructor entry plus exactly
`min(N,5) + floor(N/10)` entries appended by the on-check handler (the
first 5 occurrences plus every multiple of 10). -/
theorem c2_check_count (N : Nat) (clock : List String) :
    (ngDoCheckFull^[N] (constructFull clock)).logs.length = 1 + (min N 5 + N / 10) :=
  (doCheckFull_iterate clock N).2

/-- **C6.** The `N`th on-check notification appends a log entry exactly
when `N ≤ 5` or `N` is a multiple of 10. -/
theorem c6_check_sampling (c : LifecycleComponent) (N : Nat)
    (h : c.checkCount + 1 = N) :
    (∃ e, (ngDoCheckFull c).logs = c.logs ++ [e]) ↔ (N ≤ 5 ∨ N % 10 = 0) := by
  subst h
  by_cases hc : c.checkCount + 1 ≤ 5 ∨ (c.checkCount + 1) % 10 = 0
  · have hb : (decide (c.checkCount + 1 ≤ 5) || ((c.checkCount + 1) % 10 == 0)) = true := by
      simp only [Bool.or_eq_true, decide_eq_true_eq, beq_iff_eq]
      exact hc
    have hlogs : (ngDoCheckFull c).logs = c.logs ++ ["[" ++ c.clock.headD "" ++ "] "
        ++ ("#4. ngDoCheck: Change detection run #" ++ toString (c.checkCount + 1))] := by
      simp only [ngDoCheckFull]
      rw [if_pos hb]
      rfl
    exact ⟨fun _ => hc, fun _ => ⟨_, hlogs⟩⟩
  · have hb : ¬ ((decide (c.checkCount + 1 ≤ 5) || ((c.checkCount + 1) % 10 == 0)) = true) := by
      simp only [Bool.or_eq_true, decide_eq_true_eq, beq_iff_eq]
      exact hc
    have hlogs : (ngDoCheckFull c).logs = c.logs := by
      simp only [ngDoCheckFull]
      rw [if_neg hb]
    constructor
    · rintro ⟨e, he⟩
      rw [hlogs] at he
      have hlen := congrArg List.length he
      simp only [List.length_append, List.length_cons, List.length_nil] at hlen
      omega
    · intro hcc
      exact absurd hcc hc

/-- Witness for `c6_check_sampling` at a fresh recorder, `N = 1`. -/
theorem c6_check_sampling_witness :
    (∃ e, (ngDoCheckFull (constructFull [])).logs = (constructFull []).logs ++ [e])
      ↔ (1 ≤ 5 ∨ 1 % 10 = 0) :=
  c6_check_sampling (constructFull []) 1 rfl

theorem addLogFull_coreFields (m : String) (c : LifecycleComponent) :
    coreFields (addLogFull m c) = coreFields c := rfl

theorem changes_foldlFull_coreFields (cs : SimpleChanges) :
    ∀ c : LifecycleComponent,
      coreFields (cs.foldl (fun c pc => addLogFull (changeMsg pc.1 pc.2) c) c)
        = coreFields c := by
  induction cs with
  | nil => intro c; rfl
  | cons pc rest ih =>
      intro c
      simp only [List.foldl_cons]
      exact (ih _).trans (addLogFull_coreFields _ _)

theorem ngOnChangesFull_coreFields (cs : SimpleChanges) (c : LifecycleComponent) :
    coreFields (ngOnChangesFull cs c) = coreFields c := by
  simp only [ngOnChangesFull]
  exact (changes_foldlFull_coreFields cs _).trans (addLogFull_coreFields _ _)

theorem applyFull_contentCheckCount (n : Notification) (c : LifecycleComponent)
    (h : n ≠ Notification.afterContentChecked) :
    (applyNotificationFull n c).contentCheckCount = c.contentCheckCount := by
  cases n with
  | onChanges cs =>
      exact congrArg (fun t => t.2.2.2.1) (ngOnChangesFull_coreFields cs c)
  | onInit => rfl
  | doCheck =>
      show (ngDoCheckFull c).contentCheckCount = c.contentCheckCount
      simp only [ngDoCheckFull]
      split_ifs <;> rfl
  | afterContentInit => rfl
  | afterContentChecked => exact absurd rfl h
  | afterViewInit => rfl
  | afterViewChecked =>
      show (ngAfterViewCheckedFull c).contentCheckCount = c.contentCheckCount
      simp only [ngAfterViewCheckedFull]
      split_ifs <;> rfl
  | onDestroy => rfl
  | increment => rfl

theorem applyFull_viewCheckCount (n : Notification) (c : LifecycleComponent)
    (h : n ≠ Notification.afterViewChecked) :
    (applyNotificationFull n c).viewCheckCount = c.viewCheckCount := by
  cases n with
  | onChanges cs =>
      exact congrArg (fun t => t.2.2.2.2) (ngOnChangesFull_coreFields cs c)
  | onInit => rfl
  | doCheck =>
      show (ngDoCheckFull c).viewCheckCount = c.viewCheckCount
      simp only [ngDoCheckFull]
      split_ifs <;> rfl
  | afterContentInit => rfl
  | afterContentChecked =>
      show (ngAfterContentCheckedFull c).viewCheckCount = c.viewCheckCount
      simp only [ngAfterContentCheckedFull]
      split_ifs <;> rfl
  | afterViewInit => rfl
  | afterViewChecked => exact absurd rfl h
  | onDestroy => rfl
  | increment => rfl

theorem applyFull_checkCount (n : Notification) (c : LifecycleComponent)
    (h : n ≠ Notification.doCheck) :
    (applyNotificationFull n c).checkCount = c.checkCount := by
  cases n with
  | onChanges cs =>
      exact congrArg (fun t => t.2.2.1) (ngOnChangesFull_coreFields cs c)
  | onInit => rfl
  | doCheck => exact absurd rfl h
  | afterContentInit => rfl
  | afterContentChecked =>
      show (ngAfterContentCheckedFull c).checkCount = c.checkCount
      simp only [ngAfterContentCheckedFull]
      split_ifs <;> rfl
  | afterViewInit => rfl
  | afterViewChecked =>
      show (ngAfterViewCheckedFull c).checkCount = c.checkCount
      simp only [ngAfterViewCheckedFull]
      split_ifs <;> rfl
  | onDestroy => rfl
  | increment => rfl

/-- **C7.** The `N`th on-projected-content-checked notification appends an
entry exactly when `N ≤ 3` or `10 ∣ N`, and likewise for the `N`th
on-view-checked notification; each decision is driven by its own counter
(`contentCheckCount` / `viewCheckCount`), which no other notification
kind modifies — and no notification other than on-check modifies
on-check's counter — so interleaving the kinds cannot change any one
kind's sampling decisions. -/
theorem c7_content_view_sampling (c : LifecycleComponent) (N : Nat) :
    (c.contentCheckCount + 1 = N →
      ((∃ e, (ngAfterContentCheckedFull c).logs = c.logs ++ [e])
        ↔ (N ≤ 3 ∨ N % 10 = 0)))
    ∧ (c.viewCheckCount + 1 = N →
      ((∃ e, (ngAfterViewCheckedFull c).logs = c.logs ++ [e])
        ↔ (N ≤ 3 ∨ N % 10 = 0)))
    ∧ (∀ n : Notification, n ≠ Notification.afterContentChecked →
        (applyNotificationFull n c).contentCheckCount = c.contentCheckCount)
    ∧ (∀ n : Notification, n ≠ Notification.afterViewChecked →
        (applyNotificationFull n c).viewCheckCount = c.viewCheckCount)
    ∧ (∀ n : Notification, n ≠ Notification.doCheck →
        (applyNotificationFull n c).checkCount = c.checkCount) := by
  refine ⟨?_, ?_, fun n h => applyFull_contentCheckCount n c h,
    fun n h => applyFull_viewCheckCount n c h, fun n h => applyFull_checkCount n c h⟩
  · intro h
    subst h
    by_cases hc : c.contentCheckCount + 1 ≤ 3 ∨ (c.contentCheckCount + 1) % 10 = 0
    · have hb : (decide (c.contentCheckCount + 1 ≤ 3)
          || ((c.contentCheckCount + 1) % 10 == 0)) = true := by
        simp only [Bool.or_eq_true, decide_eq_true_eq, beq_iff_eq]
        exact hc
      have hlogs : (ngAfterContentCheckedFull c).logs = c.logs
          ++ ["[" ++ c.clock.headD "" ++ "] " ++ ("#6. ngAfterContentChecked: Content checked #"
            ++ toString (c.contentCheckCount + 1))] := by
        simp only [ngAfterContentCheckedFull]
        rw [if_pos hb]
        rfl
      exact ⟨fun _ => hc, fun _ => ⟨_, hlogs⟩⟩
    · have hb : ¬ ((decide (c.contentCheckCount + 1 ≤ 3)
          || ((c.contentCheckCount + 1) % 10 == 0)) = true) := by
        simp only [Bool.or_eq_true, decide_eq_true_eq, beq_iff_eq]
        exact hc
      have hlogs : (ngAfterContentCheckedFull c).logs = c.logs := by
        simp only [ngAfterContentCheckedFull]
        rw [if_neg hb]
      constructor
      · rintro ⟨e, he⟩
        rw [hlogs] at he
        have hlen := congrArg List.length he
        simp only [List.length_append, List.length_cons, List.length_nil] at hlen
        omega
      · intro hcc
        exact absurd hcc hc
  · intro h
    subst h
    by_cases hc : c.viewCheckCount + 1 ≤ 3 ∨ (c.viewCheckCount + 1) % 10 = 0
    · have hb : (decide (c.viewCheckCount + 1 ≤ 3)
          || ((c.viewCheckCount + 1) % 10 == 0)) = true := by
        simp only [Bool.or_eq_true, decide_eq_true_eq, beq_iff_eq]
        exact hc
      have hlogs : (ngAfterViewCheckedFull c).logs = c.logs
          ++ ["[" ++ c.clock.headD "" ++ "] " ++ ("#8. ngAfterViewChecked: View checked #"
            ++ toString (c.viewCheckCount + 1))] := by
        simp only [ngAfterViewCheckedFull]
        rw [if_pos hb]
        rfl
      exact ⟨fun _ => hc, fun _ => ⟨_, hlogs⟩⟩
    · have hb : ¬ ((decide (c.viewCheckCount + 1 ≤ 3)
          || ((c.viewCheckCount + 1) % 10 == 0)) = true) := by
        simp only [Bool.or_eq_true, decide_eq_true_eq, beq_iff_eq]
        exact hc
      have hlogs : (ngAfterViewCheckedFull c).logs = c.logs := by
        simp only [ngAfterViewCheckedFull]
        rw [if_neg hb]
      constructor
      · rintro ⟨e, he⟩
        rw [hlogs] at he
        have hlen := congrArg List.length he
        simp only [List.length_append, List.length_cons, List.length_nil] at hlen
        omega
      · intro hcc
        exact absurd hcc hc

/-- Witness for `c7_content_view_sampling` at a fresh recorder, `N = 1`,
discharging each hypothesis at a concrete notification. -/
theorem c7_content_view_sampling_witness :
    ((∃ e, (ngAfterContentCheckedFull (constructFull [])).logs
        = (constructFull []).logs ++ [e]) ↔ (1 ≤ 3 ∨ 1 % 10 = 0))
    ∧ ((∃ e, (ngAfterViewCheckedFull (constructFull [])).logs
        = (constructFull []).logs ++ [e]) ↔ (1 ≤ 3 ∨ 1 % 10 = 0))
    ∧ (applyNotificationFull Notification.doCheck (constructFull [])).contentCheckCount
        = (constructFull []).contentCheckCount
    ∧ (applyNotificationFull Notification.doCheck (constructFull [])).viewCheckCount
        = (constructFull []).viewCheckCount
    ∧ (applyNotificationFull Notification.onInit (constructFull [])).checkCount
        = (constructFull []).checkCount := by
  obtain ⟨h1, h2, h3, h4, h5⟩ := c7_content_view_sampling (constructFull []) 1
  exact ⟨h1 rfl, h2 rfl, h3 _ (by decide), h4 _ (by decide), h5 _ (by decide)⟩

/-! ### Structure of the `ngOnChanges` log output (claims C5, C9) -/

theorem changes_foldlFull_logs (cs : SimpleChanges) :
    ∀ c : LifecycleComponent,
      (cs.foldl (fun c pc => addLogFull (changeMsg pc.1 pc.2) c) c).logs
        = c.logs ++ propLines c.clock cs := by
  induction cs with
  | nil => intro c; simp [propLines]
  | cons pc rest ih =>
      intro c
      simp only [List.foldl_cons, propLines]
      rw [ih]
      simp [addLogFull, List.append_assoc]

theorem ngOnChangesFull_logs (cs : SimpleChanges) (c : LifecycleComponent) :
    (ngOnChangesFull cs c).logs
      = c.logs
        ++ ["[" ++ c.clock.headD "" ++ "] " ++ "#2. ngOnChanges: Input properties changed"]
        ++ propLines c.clock.tail cs := by
  simp only [ngOnChangesFull]
  rw [changes_foldlFull_logs]
  simp [addLogFull, List.append_assoc]

theorem propLines_length : ∀ (clk : List String) (cs : SimpleChanges),
    (propLines clk cs).length = cs.length := by
  intro clk cs
  induction cs generalizing clk with
  | nil => rfl
  | cons pc rest ih => simp [propLines, ih]

/-! ### Substring machinery -/

theorem leadsWith_self : ∀ n : List Char, leadsWith n n = true := by
  intro n
  induction n with
  | nil => rfl
  | cons a as ih => simp [leadsWith, ih]

theorem containsSeq_append_self (n : List Char) :
    ∀ p : List Char, containsSeq n (p ++ n) = true := by
  intro p
  induction p with
  | nil =>
      cases n with
      | nil => rfl
      | cons a as => simp [containsSeq, leadsWith_self]
  | cons b p ih => simp [containsSeq, ih]

theorem strHas_append_self (p s : String) : strHas s (p ++ s) = true := by
  simp only [strHas]
  have h : (p ++ s).toList = p.toList ++ s.toList := by simp [String.toList]
  rw [h]
  exact containsSeq_append_self _ _

/-- When the sampling condition admits the `checkCount+1`-th on-check,
`ngDoCheck` appends exactly its formatted entry. -/
theorem doCheckFull_appends (c : LifecycleComponent)
    (h : c.checkCount + 1 ≤ 5 ∨ (c.checkCount + 1) % 10 = 0) :
    (ngDoCheckFull c).logs = c.logs ++ ["[" ++ c.clock.headD "" ++ "] "
      ++ ("#4. ngDoCheck: Change detection run #" ++ toString (c.checkCount + 1))] := by
  have hb : (decide (c.checkCount + 1 ≤ 5) || ((c.checkCount + 1) % 10 == 0)) = true := by
    simp only [Bool.or_eq_true, decide_eq_true_eq, beq_iff_eq]
    exact h
  simp only [ngDoCheckFull]
  rw [if_pos hb]
  rfl

/-! ### Claims C3, C4, C5, C8, C9, C10 -/

/-- **C3 (counterexample).** The recorder does not treat notifications
after on-destroy as errors: after `construct → ngOnDestroy` (buffer: 2
entries), a further `ngDoCheck` is absorbed and mutates the buffer to 3
entries — it neither raises anything (all handlers are total) nor leaves
the buffer unchanged. -/
theorem c3_after_destroy_cex :
    (ngOnDestroy (construct [])).logs.length = 2
    ∧ (ngDoCheck (ngOnDestroy (construct []))).logs.length = 3 := by
  decide

/-- **C3 (amended).** A notification delivered after on-destroy raises no
error and is processed like any other notification: `ngOnDestroy` records
no terminal state (it only appends its entry — name, counter and all
sampling counters are untouched), so a subsequent on-check behaves exactly
as it would have without the destroy, appending its entry (and thus
mutating the buffer) whenever its sampling condition holds. -/
theorem c3_after_destroy (c : LifecycleComponent) :
    ((ngOnDestroyFull c).name = c.name
      ∧ (ngOnDestroyFull c).counter = c.counter
      ∧ (ngOnDestroyFull c).checkCount = c.checkCount
      ∧ (ngOnDestroyFull c).contentCheckCount = c.contentCheckCount
      ∧ (ngOnDestroyFull c).viewCheckCount = c.viewCheckCount
      ∧ (ngOnDestroyFull c).logs
          = c.logs ++ ["[" ++ c.clock.headD "" ++ "] "
            ++ "#9. ngOnDestroy: Component is being destroyed"])
    ∧ (c.checkCount + 1 ≤ 5 ∨ (c.checkCount + 1) % 10 = 0 →
        (ngDoCheckFull (ngOnDestroyFull c)).logs
          = (ngOnDestroyFull c).logs
            ++ ["[" ++ (ngOnDestroyFull c).clock.headD "" ++ "] "
              ++ ("#4. ngDoCheck: Change detection run #" ++ toString (c.checkCount + 1))]) := by
  refine ⟨⟨rfl, rfl, rfl, rfl, rfl, rfl⟩, ?_⟩
  intro h
  exact doCheckFull_appends (ngOnDestroyFull c) h

/-- Witness for `c3_after_destroy`: on a fresh state, the on-check
delivered after on-destroy appends its entry. -/
theorem c3_after_destroy_witness :
    (ngDoCheckFull (ngOnDestroyFull (initState []))).logs
      = (ngOnDestroyFull (initState [])).logs
        ++ ["[" ++ (ngOnDestroyFull (initState [])).clock.headD "" ++ "] "
          ++ ("#4. ngDoCheck: Change detection run #"
            ++ toString ((initState []).checkCount + 1))] :=
  (c3_after_destroy (initState [])).2 (by decide)

/-- **C4 (counterexample).** A second `ngOnInit` on the same instance is
handled exactly as a normal notification — it appends the usual
initialization entry again (no error is surfaced): after
`construct → ngOnInit` the buffer has 2 entries, and the second
`ngOnInit` appends a third, identical, entry. -/
theorem c4_double_init_cex :
    (ngOnInit (ngOnInit (construct []))).logs
      = (ngOnInit (construct [])).logs
        ++ ["[] #3. ngOnInit: Component initialized (called once)"]
    ∧ (ngOnInit (construct [])).logs.length = 2 := by
  decide

/-- **C4 (amended).** `ngOnInit` appends its entry unconditionally on
every call: a second on-ready call on the same instance is processed as a
normal notification, appending a second initialization entry, and no
error is raised (the handler keeps no fired-already state). -/
theorem c4_init_appends_each_call (c : LifecycleComponent) :
    (ngOnInitFull c).logs
      = c.logs ++ ["[" ++ c.clock.headD "" ++ "] "
          ++ "#3. ngOnInit: Component initialized (called once)"]
    ∧ (ngOnInitFull (ngOnInitFull c)).logs
      = c.logs ++ ["[" ++ c.clock.headD "" ++ "] "
            ++ "#3. ngOnInit: Component initialized (called once)",
          "[" ++ c.clock.tail.headD "" ++ "] "
            ++ "#3. ngOnInit: Component initialized (called once)"] := by
  constructor
  · rfl
  · simp [ngOnInitFull, addLogFull, List.append_assoc]

/-- **C5 (counterexample).** For the changeset
`{name: {previous:"A", current:"B"}}` the per-property line (the one
containing "A" and "B") is appended *after* the summary line, not before
it: the handler logs the summary/header first. -/
theorem c5_order_cex :
    (ngOnChangesFull [("name", ⟨JsValue.str "A", JsValue.str "B"⟩)] (initState [])).logs
      = ["[] #2. ngOnChanges: Input properties changed",
         "[] #2. ngOnChanges: - name: \"A\" → \"B\""]
    ∧ strHas "A" "[] #2. ngOnChanges: Input properties changed" = false
    ∧ strHas "A" "[] #2. ngOnChanges: - name: \"A\" → \"B\"" = true
    ∧ strHas "B" "[] #2. ngOnChanges: - name: \"A\" → \"B\"" = true := by
  decide

/-- **C5 (amended).** For every changeset, `ngOnChanges` appends exactly
one summary line plus exactly one formatted line per changed property,
processing all properties in the changeset's iteration (insertion) order —
with the summary line appended first, before the per-property lines. -/
theorem c5_onChanges_lines (cs : SimpleChanges) (c : LifecycleComponent) :
    (ngOnChangesFull cs c).logs
      = c.logs
        ++ ["[" ++ c.clock.headD "" ++ "] " ++ "#2. ngOnChanges: Input properties changed"]
        ++ propLines c.clock.tail cs
    ∧ (propLines c.clock.tail cs).length = cs.length :=
  ⟨ngOnChangesFull_logs cs c, propLines_length _ _⟩

/-- **C8.** The scenario `construct → ngOnChanges({name: "X" → "Y"}) →
ngOnInit → ngDoCheck ×7 → ngOnDestroy` ends with exactly 10 buffer
entries: 1 create, 2 input-changed, 1 ready, 5 check entries (occurrences
1–5; 6 and 7 suppressed), 1 destroy — in that order. -/
theorem c8_scenario :
    (run [Notification.onChanges [("name", ⟨JsValue.str "X", JsValue.str "Y"⟩)],
          Notification.onInit, Notification.doCheck, Notification.doCheck,
          Notification.doCheck, Notification.doCheck, Notification.doCheck,
          Notification.doCheck, Notification.doCheck,
          Notification.onDestroy] (construct [])).logs
      = ["[] #1. Constructor: Component instance created",
         "[] #2. ngOnChanges: Input properties changed",
         "[] #2. ngOnChanges: - name: \"X\" → \"Y\"",
         "[] #3. ngOnInit: Component initialized (called once)",
         "[] #4. ngDoCheck: Change detection run #1",
         "[] #4. ngDoCheck: Change detection run #2",
         "[] #4. ngDoCheck: Change detection run #3",
         "[] #4. ngDoCheck: Change detection run #4",
         "[] #4. ngDoCheck: Change detection run #5",
         "[] #9. ngOnDestroy: Component is being destroyed"] := by
  decide

/-- **C9 (counterexample).** A changeset entry whose `previousValue` is
absent (`undefined`) is rendered in its per-property line as "undefined",
not "unknown" (`JSON.stringify(undefined)` is `undefined`, which the
template literal prints as "undefined"); the notification is still fully
processed. -/
theorem c9_unknown_cex :
    (ngOnChangesFull [("name", ⟨JsValue.undefined, JsValue.str "Y"⟩)] (initState [])).logs
      = ["[] #2. ngOnChanges: Input properties changed",
         "[] #2. ngOnChanges: - name: undefined → \"Y\""]
    ∧ strHas "unknown" "[] #2. ngOnChanges: - name: undefined → \"Y\"" = false
    ∧ strHas "undefined" "[] #2. ngOnChanges: - name: undefined → \"Y\"" = true := by
  decide

/-- **C9 (amended).** A missing (`undefined`) field in a changeset entry
degrades gracefully: its per-property line renders the field as
"undefined", and the whole notification is still processed — the summary
line and one line for every property of the changeset (the malformed one
included) are appended. -/
theorem c9_undefined_graceful (c : LifecycleComponent) (pn : String) (cur : JsValue)
    (rest : SimpleChanges) :
    changeMsg pn ⟨JsValue.undefined, cur⟩
      = "#2. ngOnChanges: - " ++ pn ++ ": " ++ "undefined" ++ " → "
        ++ jsTemplateStr (jsonStringify cur)
    ∧ (ngOnChangesFull ((pn, ⟨JsValue.undefined, cur⟩) :: rest) c).logs
        = c.logs
          ++ ["[" ++ c.clock.headD "" ++ "] " ++ "#2. ngOnChanges: Input properties changed"]
          ++ propLines c.clock.tail ((pn, ⟨JsValue.undefined, cur⟩) :: rest)
    ∧ (propLines c.clock.tail ((pn, ⟨JsValue.undefined, cur⟩) :: rest)).length
        = rest.length + 1 := by
  refine ⟨rfl, ngOnChangesFull_logs _ c, ?_⟩
  rw [propLines_length]
  simp

/-! ### Frame conditions (claim C10) -/

theorem addLog_coreFields (m : String) (c : LifecycleComponent) :
    coreFields (addLog m c) = coreFields c := rfl

theorem changes_foldl_coreFields (cs : SimpleChanges) :
    ∀ c : LifecycleComponent,
      coreFields (cs.foldl (fun c pc => addLog (changeMsg pc.1 pc.2) c) c)
        = coreFields c := by
  induction cs with
  | nil => intro c; rfl
  | cons pc rest ih =>
      intro c
      simp only [List.foldl_cons]
      exact (ih _).trans (addLog_coreFields _ _)

theorem ngOnChanges_coreFields (cs : SimpleChanges) (c : LifecycleComponent) :
    coreFields (ngOnChanges cs c) = coreFields c := by
  simp only [ngOnChanges]
  exact (changes_foldl_coreFields cs _).trans (addLog_coreFields _ _)

theorem applyNotification_preserves_name_counter (n : Notification)
    (c : LifecycleComponent) (h : n ≠ Notification.increment) :
    (applyNotification n c).name = c.name
    ∧ (applyNotification n c).counter = c.counter := by
  cases n with
  | onChanges cs =>
      exact ⟨congrArg (fun t => t.1) (ngOnChanges_coreFields cs c),
        congrArg (fun t => t.2.1) (ngOnChanges_coreFields cs c)⟩
  | onInit => exact ⟨rfl, rfl⟩
  | doCheck =>
      refine ⟨?_, ?_⟩ <;>
        (simp only [applyNotification, ngDoCheck]; split_ifs <;> rfl)
  | afterContentInit => exact ⟨rfl, rfl⟩
  | afterContentChecked =>
      refine ⟨?_, ?_⟩ <;>
        (simp only [applyNotification, ngAfterContentChecked]; split_ifs <;> rfl)
  | afterViewInit => exact ⟨rfl, rfl⟩
  | afterViewChecked =>
      refine ⟨?_, ?_⟩ <;>
        (simp only [applyNotification, ngAfterViewChecked]; split_ifs <;> rfl)
  | onDestroy => exact ⟨rfl, rfl⟩
  | increment => exact absurd rfl h

/-- **C10.** No lifecycle notification handler modifies the observed
state fields `name` and `counter`; only the user-action increment mutates
`counter`, and it increases it by exactly 1 and appends exactly one log
entry containing the new value. -/
theorem c10_frame (c : LifecycleComponent) :
    (∀ n : Notification, n ≠ Notification.increment →
      (applyNotification n c).name = c.name
      ∧ (applyNotification n c).counter = c.counter)
    ∧ (incrementCounter c).counter = c.counter + 1
    ∧ (incrementCounter c).name = c.name
    ∧ (incrementCounterFull c).logs
        = c.logs ++ ["[" ++ c.clock.headD "" ++ "] "
            ++ ("User Action: Counter incremented to " ++ toString (c.counter + 1))]
    ∧ strHas (toString (c.counter + 1))
        ("[" ++ c.clock.headD "" ++ "] "
          ++ ("User Action: Counter incremented to " ++ toString (c.counter + 1)))
        = true := by
  refine ⟨fun n h => applyNotification_preserves_name_counter n c h, rfl, rfl, rfl, ?_⟩
  have h := strHas_append_self
    ("[" ++ c.clock.headD "" ++ "] " ++ "User Action: Counter incremented to ")
    (toString (c.counter + 1))
  rw [String.append_assoc] at h
  exact h

/-- Witness for `c10_frame`: the on-destroy notification on a fresh
recorder preserves `name` and `counter`. -/
theorem c10_frame_witness :
    (applyNotification Notification.onDestroy (construct [])).name
      = (construct []).name
    ∧ (applyNotification Notification.onDestroy (construct [])).counter
      = (construct []).counter :=
  (c10_frame (construct [])).1 Notification.onDestroy (by decide)
